import Mathlib

/-!
Verification development for the Agentic Nutrition Planner orchestration core
(`src/app.py`).  The Python source is shallowly embedded: pure helper functions
become Lean functions on `List Char` / `String`, Python floats are modelled as
exact rationals (the decimal literals of the source are exactly representable
and no claim below depends on rounding of binary floating point), Python
`re`-pattern matching is modelled by hand-rolled matchers that reproduce
`re.search` / `re.findall` semantics (leftmost match, greedy quantifiers with
backtracking over the bounded digit repetitions) for the fixed patterns that
occur in the source, over the ASCII fragment that the patterns use
(`\d` is modelled as the ASCII digits, `\s` as the ASCII whitespace
characters, `str.lower` / `re.IGNORECASE` as ASCII lowering).
The generation backend (Groq chat completions) is an external collaborator and
is modelled as an oracle: a function from the text it is shown to the text it
returns.
-/

namespace NutriPlan

/-! ## Character utilities (ASCII models of Python str/re primitives) -/

/-- ASCII model of the regex class backslash-s: space, tab, newline, carriage
return, vertical tab, form feed. -/
def isWs (c : Char) : Bool :=
  c = ' ' || c = '\t' || c = '\n' || c = '\r' || c = Char.ofNat 11 || c = Char.ofNat 12

/-- ASCII model of the regex class backslash-d. -/
def isDig (c : Char) : Bool := c.isDigit

/-- ASCII model of Python `str.lower()`. -/
def lowerL (l : List Char) : List Char := l.map Char.toLower

/-- Numeric value of a digit string, models Python `int(...)` on the
all-digit capture groups of the source. -/
def natOf (ds : List Char) : Nat := ds.foldl (fun n c => 10 * n + (c.toNat - 48)) 0

/-- Boolean prefix test on character lists. -/
def isPref : List Char → List Char → Bool
  | [], _ => true
  | _ :: _, [] => false
  | p :: ps, c :: cs => p = c && isPref ps cs

/-- Boolean substring test: `containsSub pat l` holds iff `pat` occurs
contiguously inside `l`.  Models Python `pat in text`. -/
def containsSub (pat : List Char) : List Char → Bool
  | [] => isPref pat []
  | c :: cs => isPref pat (c :: cs) || containsSub pat cs

/-- Python `text[-n:]`. -/
def lastN (n : Nat) (l : List α) : List α := l.drop (l.length - n)

/-- ASCII model of Python `str.strip()`. -/
def pyStrip (s : String) : String :=
  String.mk (((s.toList.dropWhile isWs).reverse.dropWhile isWs).reverse)

/-! ## Matching combinators

Each matcher takes the character list starting at a candidate match position
and returns `none` (no match at this position) or the relevant data plus the
remainder of the list after the full match.  `searchA` and `findallA` then
reproduce `re.search` (leftmost match) and `re.findall` (all non-overlapping
matches, scanning left to right) for such positional matchers. -/

/-- Match a literal string at the head, returning the remainder. -/
def lit (w : String) (l : List Char) : Option (List Char) :=
  if isPref w.toList l then some (l.drop w.toList.length) else none

/-- Greedy star of the whitespace class. -/
def ws (l : List Char) : List Char := l.dropWhile isWs

/-- Model of the regex piece `[:\x2d]?` (an optional colon or hyphen):
the following pattern pieces in the source never match colon or hyphen, so
the greedy optional is deterministic. -/
def optColonDash (l : List Char) : List Char :=
  match l with
  | c :: cs => if c = ':' || c = '-' then cs else l
  | [] => []

/-- Maximal digit run and remainder. -/
def digRun (l : List Char) : List Char × List Char :=
  (l.takeWhile isDig, l.dropWhile isDig)

/-- Backtracking over the length of a bounded digit repetition: try taking
`k, k-1, ..., lo` digits (greedy preference for longer), requiring the
continuation `cont` to match the rest.  Returns the captured number and the
remainder after the continuation. -/
def tryK (lo : Nat) (ds rest : List Char) (cont : List Char → Option (List Char)) :
    Nat → Option (Nat × List Char)
  | 0 => none
  | k + 1 =>
    if k + 1 < lo then none
    else
      match cont (ds.drop (k + 1) ++ rest) with
      | some r => some (natOf (ds.take (k + 1)), r)
      | none => tryK lo ds rest cont k

/-- Model of a capture group `(\d{lo,hi})` followed by the continuation
`cont`, with `re`'s greedy backtracking over the repetition count. -/
def digBounded (lo hi : Nat) (cont : List Char → Option (List Char)) (l : List Char) :
    Option (Nat × List Char) :=
  let ds := (digRun l).1
  let rest := (digRun l).2
  if ds.length < lo then none else tryK lo ds rest cont (min ds.length hi)

/-- `re.search`: scan candidate start positions left to right, first matching
position wins. -/
def searchA (f : List Char → Option α) : List Char → Option α
  | [] => none
  | c :: cs =>
    match f (c :: cs) with
    | some v => some v
    | none => searchA f cs

/-- Fuelled worker for `re.findall`: on a match, scanning resumes after the
matched span (all matchers below consume at least one character per match). -/
def findallA (f : List Char → Option (Nat × List Char)) : Nat → List Char → List Nat
  | 0, _ => []
  | _, [] => []
  | fuel + 1, c :: cs =>
    match f (c :: cs) with
    | some (v, rest) => v :: findallA f fuel rest
    | none => findallA f fuel cs

/-- `re.findall` over a whole character list. -/
def findall (f : List Char → Option (Nat × List Char)) (l : List Char) : List Nat :=
  findallA f l.length l

/-! ## `extract_calories` (src/app.py lines 250-320)

The three explicit-total patterns of tier 1, the four meal patterns of
tier 2 and the weak-fallback pattern of tier 3, applied to the lowercased
text exactly as in the source. -/

/-- Continuation shared by the patterns ending in whitespace-star + `kcal`. -/
def kcalCont (l : List Char) : Option (List Char) := lit "kcal" (ws l)

/-- Tier-1 pattern `total` ws [:-]? ws `(\d{3,5})` ws `kcal` at one position. -/
def p1At (l : List Char) : Option (Nat × List Char) :=
  match lit "total" l with
  | none => none
  | some l1 => digBounded 3 5 kcalCont (ws (optColonDash (ws l1)))

/-- Continuation that accepts immediately (patterns with nothing after the
capture group: the greedy capture takes the maximal admissible digits). -/
def nilCont (l : List Char) : Option (List Char) := some l

/-- Tier-1 pattern `#` ws `total` ws [:-]? ws `(\d{3,5})` at one position. -/
def p2At (l : List Char) : Option (Nat × List Char) :=
  match lit "#" l with
  | none => none
  | some l1 =>
    match lit "total" (ws l1) with
    | none => none
    | some l2 => digBounded 3 5 nilCont (ws (optColonDash (ws l2)))

/-- Tier-1 pattern `total calories` ws [:-]? ws `(\d{3,5})` at one position. -/
def p3At (l : List Char) : Option (Nat × List Char) :=
  match lit "total calories" l with
  | none => none
  | some l1 => digBounded 3 5 nilCont (ws (optColonDash (ws l1)))

/-- Tier 1: the explicit-total patterns tried in order, each by `re.search`. -/
def tier1 (t : List Char) : Option Nat :=
  match searchA p1At t with
  | some v => some v.1
  | none =>
    match searchA p2At t with
    | some v => some v.1
    | none =>
      match searchA p3At t with
      | some v => some v.1
      | none => none

/-- A tier-2 meal pattern `word` (optional `s` when `optS`) ws [:-]? ws
`(\d{2,4})` ws `kcal` at one position.  The optional `s` of `snacks?` is
deterministic because the following pattern pieces never match `s`. -/
def mealAt (word : String) (optS : Bool) (l : List Char) : Option (Nat × List Char) :=
  match lit word l with
  | none => none
  | some l1 =>
    let l2 := if optS then (match l1 with | 's' :: cs => cs | _ => l1) else l1
    digBounded 2 4 kcalCont (ws (optColonDash (ws l2)))

/-- Tier 2: every capture of the four meal patterns (`re.findall` each). -/
def mealCaps (t : List Char) : List Nat :=
  findall (mealAt "breakfast" false) t ++ findall (mealAt "lunch" false) t ++
    findall (mealAt "dinner" false) t ++ findall (mealAt "snack" true) t

/-- Tier-3 pattern `(\d{2,4})` ws `kcal` at one position. -/
def kcalAt (l : List Char) : Option (Nat × List Char) :=
  digBounded 2 4 kcalCont l

/-- Tier 3: all tier-3 captures in the 50..2000 range. -/
def tier3Caps (t : List Char) : List Nat :=
  (findall kcalAt t).filter (fun n => 50 ≤ n && n ≤ 2000)

/-- The tier cascade of `extract_calories` on the lowercased text: tier 1
returns its first match, else tier 2 returns the sum of every meal capture
when any exists, else tier 3 returns the guarded sum, else 0. -/
def extract_calories_core (t : List Char) : Nat :=
  match tier1 t with
  | some v => v
  | none =>
    if (mealCaps t).isEmpty then
      if (tier3Caps t).isEmpty then 0
      else if (tier3Caps t).sum ≤ 6000 then (tier3Caps t).sum else 0
    else (mealCaps t).sum

/-- `extract_calories` (src/app.py lines 250-320).  The `isinstance` guard of
the source is subsumed by the typed embedding; the falsiness guard on the
empty string is kept. -/
def extract_calories (s : String) : Nat :=
  if s = "" then 0 else extract_calories_core (lowerL s.toList)

/-! ## Cost extraction

Step 6 of the plan workflow (src/app.py lines 842-844) runs a single
case-sensitive search for the `### TOTAL_COST:` sentinel against the
(possibly corrected) budget-stage text.  Step 8 (lines 887-916) runs an
ordered list of six case-insensitive patterns against the manager-stage
output first and falls back to the budget-stage text. -/

/-- The regex class `[\d,]`. -/
def isDigComma (c : Char) : Bool := isDig c || c = ','

/-- Maximal `[\d,]+` run and remainder. -/
def digCommaRun (l : List Char) : List Char × List Char :=
  (l.takeWhile isDigComma, l.dropWhile isDigComma)

/-- Pattern `###` ws `TOTAL_COST:` ws `([\d,]+)` at one position
(case-sensitive, used by the step-6 extraction). -/
def earlyCostAt (l : List Char) : Option (List Char) :=
  match lit "###" l with
  | none => none
  | some l1 =>
    match lit "TOTAL_COST:" (ws l1) with
    | none => none
    | some l2 =>
      let ds := (digCommaRun (ws l2)).1
      if ds.isEmpty then none else some ds

/-- Step-6 cost extraction (src/app.py lines 842-843): first sentinel match
with commas stripped, else the string "0". -/
def earlyCost (planText : String) : String :=
  match searchA earlyCostAt planText.toList with
  | some ds => String.mk (ds.filter (fun c => c ≠ ','))
  | none => "0"

/-- Pattern 1 of the step-8 list: `###` ws `total_cost:` ws `([\d,]+)` ws
`###` (applied to lowercased text, modelling `re.IGNORECASE`). -/
def iCost1At (l : List Char) : Option (List Char) :=
  match lit "###" l with
  | none => none
  | some l1 =>
    match lit "total_cost:" (ws l1) with
    | none => none
    | some l2 =>
      let ds := (digCommaRun (ws l2)).1
      let rest := (digCommaRun (ws l2)).2
      if ds.isEmpty then none
      else match lit "###" (ws rest) with
        | some _ => some ds
        | none => none

/-- Pattern 2: as pattern 1 without the closing sentinel. -/
def iCost2At (l : List Char) : Option (List Char) :=
  match lit "###" l with
  | none => none
  | some l1 =>
    match lit "total_cost:" (ws l1) with
    | none => none
    | some l2 =>
      let ds := (digCommaRun (ws l2)).1
      if ds.isEmpty then none else some ds

/-- Pattern 3: a bare `total_cost:` label. -/
def iCost3At (l : List Char) : Option (List Char) :=
  match lit "total_cost:" l with
  | none => none
  | some l1 =>
    let ds := (digCommaRun (ws l1)).1
    if ds.isEmpty then none else some ds

/-- The regex class `[:\s]`. -/
def isColonWs (c : Char) : Bool := c = ':' || isWs c

/-- Shared tail `[:\s]+` rupee? ws `([\d,]+)` of patterns 4 and 5.  The
optional rupee sign and the digit class are disjoint from `[:\s]`, so the
greedy one-or-more is deterministic. -/
def costLabelTail (l : List Char) : Option (List Char) :=
  let cs := l.takeWhile isColonWs
  let l1 := l.dropWhile isColonWs
  if cs.isEmpty then none
  else
    let l2 := match l1 with | '₹' :: r => r | _ => l1
    let ds := (digCommaRun (ws l2)).1
    if ds.isEmpty then none else some ds

/-- Pattern 4: natural-language `total cost` label. -/
def iCost4At (l : List Char) : Option (List Char) :=
  match lit "total cost" l with
  | none => none
  | some l1 => costLabelTail l1

/-- Pattern 5: bare `total` label. -/
def iCost5At (l : List Char) : Option (List Char) :=
  match lit "total" l with
  | none => none
  | some l1 => costLabelTail l1

/-- Pattern 6: rupee sign ws `([\d,]+)`. -/
def iCost6At (l : List Char) : Option (List Char) :=
  match l with
  | '₹' :: r =>
    let ds := (digCommaRun (ws r)).1
    if ds.isEmpty then none else some ds
  | _ => none

/-- The ordered step-8 pattern list. -/
def iCostPatterns : List (List Char → Option (List Char)) :=
  [iCost1At, iCost2At, iCost3At, iCost4At, iCost5At, iCost6At]

/-- Python `str.isdigit` on the comma-stripped captures (ASCII model). -/
def allDigits (s : String) : Bool := s.toList.all isDig

/-- One pass of the step-8 `for pattern in patterns` loop over one text
(src/app.py lines 902-907 and 911-916): `acc` is the mutable
`extracted_cost`; a match always overwrites it, and the loop breaks only
when the comma-stripped, stripped capture is a nonempty digit string. -/
def costLoop (t : List Char) : List (List Char → Option (List Char)) → String → String
  | [], acc => acc
  | p :: ps, acc =>
    match searchA p t with
    | some ds =>
      let c := pyStrip (String.mk (ds.filter (fun ch => ch ≠ ',')))
      if c ≠ "" && allDigits c then c else costLoop t ps c
    | none => costLoop t ps acc

/-- Step-8 cost extraction (src/app.py lines 887-916): search the
manager-stage output first; fall back to the budget-stage text only when the
first pass left `extracted_cost` at exactly "0". -/
def improvedCost (finalOutput planText : String) : String :=
  let c1 := costLoop (lowerL finalOutput.toList) iCostPatterns "0"
  if c1 = "0" then costLoop (lowerL planText.toList) iCostPatterns "0" else c1

/-! ## `estimate_food_carbon` (src/app.py lines 972-998) -/

/-- Python `any(x in text for x in words)`. -/
def containsAny (t : List Char) (words : List String) : Bool :=
  words.any (fun w => containsSub w.toList t)

/-- `estimate_food_carbon` (src/app.py lines 972-998): keyword classifier
over the lowercased description, first match wins, in the if-chain order of
the source.  The float returns of the source are exact decimals, modelled as
rationals. -/
def estimate_food_carbon (food_text : String) : ℚ :=
  let t := lowerL food_text.toList
  if containsAny t ["mutton", "lamb", "beef"] then 5/2
  else if containsAny t ["chicken"] then 4/5
  else if containsAny t ["paneer", "cheese", "butter"] then 3/5
  else if containsAny t ["egg"] then 2/5
  else if containsAny t ["fish"] then 1/2
  else if containsAny t ["dal", "lentil", "beans"] then 1/5
  else if containsAny t ["vegetable", "sabzi", "salad"] then 3/20
  else if containsAny t ["rice", "roti", "chapati"] then 1/4
  else 7/20

/-! ## `calculate_needs` and `calculate_protein` (src/app.py lines 156-162) -/

/-- Python `int(...)` on a float/rational: truncation toward zero. -/
def pyInt (q : ℚ) : ℤ := if 0 ≤ q then ⌊q⌋ else ⌈q⌉

/-- The `multipliers` dict of `calculate_needs`. -/
def multipliers : List (String × ℚ) :=
  [("Sedentary", 6/5), ("Active", 31/20), ("Very Active", 19/10)]

/-- Python `dict.get(key, default)` on a small association list. -/
def dictGet : List (String × ℚ) → String → ℚ → ℚ
  | [], _, dflt => dflt
  | p :: ps, k, dflt => if p.1 = k then p.2 else dictGet ps k dflt

/-- `calculate_needs` (src/app.py lines 156-160): Mifflin-St Jeor BMR times
the activity multiplier, truncated to an integer.  Floats are modelled as
exact rationals; at every input below the float and rational evaluations
truncate to the same integer. -/
def calculate_needs (weight height : ℚ) (age : ℤ) (gender activity : String) : ℤ :=
  let bmr : ℚ :=
    if gender = "Male" then 10 * weight + (25/4) * height - 5 * age + 5
    else 10 * weight + (25/4) * height - 5 * age - 161
  pyInt (bmr * dictGet multipliers activity (6/5))

/-- `calculate_protein` (src/app.py line 162). -/
def calculate_protein (weight : ℚ) : ℚ := weight * 2

/-! ## `detect_user_intent` (src/app.py lines 322-419)

The generation call is an external collaborator: its outcome is a parameter,
either a raised error (carrying `str(e)`) or the reply text.  The stdlib JSON
decoder is likewise an oracle, returning either the decoded top-level object
(a key/value list) or a failure message; the claims below concern only the
error paths and the missing-`"intent"` path, which this models exactly. -/

/-- JSON values as produced by the decoder oracle. -/
inductive JsonV where
  | null : JsonV
  | jbool : Bool → JsonV
  | jnum : ℚ → JsonV
  | jstr : String → JsonV
  | jarr : List JsonV → JsonV
  | jobj : List (String × JsonV) → JsonV

/-- Single-quote character (written via its code point). -/
def squote : Char := Char.ofNat 39

/-- Double-quote character (written via its code point). -/
def dquote : Char := Char.ofNat 34

/-- The message of the `ValueError` raised when the decoded reply lacks the
intent key: `Missing` then the quoted word `intent` then `field in response`,
with the word in single quotes as in the source. -/
def missingIntentMsg : String :=
  "Missing " ++ String.mk [squote] ++ "intent" ++ String.mk [squote] ++ " field in response"

/-- The fallback dict returned by the `except` clause of `detect_user_intent`
(src/app.py lines 410-419). -/
def intentFallback (e : String) : JsonV :=
  .jobj [("intent", .jstr "GENERAL_QUESTION"), ("confidence", .jnum (1/2)),
    ("duration", .null), ("meals_per_day", .null), ("feedback", .null),
    ("reasoning", .jstr ("Error parsing intent: " ++ e))]

/-- Python `"intent" in dict`. -/
def hasKey (k : String) (fields : List (String × JsonV)) : Bool :=
  fields.any (fun p => p.1 = k)

/-- Opening and closing brace characters (written via code points). -/
def obrace : Char := Char.ofNat 123

/-- Closing brace character. -/
def cbrace : Char := Char.ofNat 125

/-- One-position matcher for the brace-extraction regex of src/app.py line
397: an opening brace, then non-brace characters containing the quoted key
`"intent"`, then a closing brace; returns the full matched span. -/
def braceAt (l : List Char) : Option (List Char) :=
  match l with
  | c :: rest =>
    if c = obrace then
      let body := rest.takeWhile (fun ch => ch ≠ obrace && ch ≠ cbrace)
      match rest.drop body.length with
      | c2 :: _ =>
        if c2 = cbrace && containsSub (dquote :: "intent".toList ++ [dquote]) body then
          some (c :: body ++ [c2])
        else none
      | [] => none
    else none
  | [] => none

/-- Reply preprocessing of `detect_user_intent` (src/app.py lines 394-399):
strip, then replace the reply by the first brace-delimited span containing
`"intent"` when one exists. -/
def preprocessIntent (resp : String) : String :=
  let t := pyStrip resp
  match searchA braceAt t.toList with
  | some m => String.mk m
  | none => t

/-- `detect_user_intent` (src/app.py lines 322-419), abstracted over the
generation outcome and the JSON decoder oracle.  A decoded object lacking the
`"intent"` key raises `ValueError("Missing 'intent' field in response")`,
caught by the same `except` clause. -/
def detect_user_intent (genResult : Except String String)
    (loads : String → Except String (List (String × JsonV))) : JsonV :=
  match genResult with
  | .error e => intentFallback e
  | .ok resp =>
    match loads (preprocessIntent resp) with
    | .error e => intentFallback e
    | .ok fields =>
      if hasKey "intent" fields then .jobj fields
      else intentFallback missingIntentMsg

/-! ## `generate_plan_workflow` (src/app.py lines 553-926)

The request-analysis, doctor and chef stages only shape the prompts shown to
the budget agent; the budget-stage output, the correction agent and the
manager agent are the generation-backend oracle.  `correct` maps the current
plan text to the corrected text (the correction prompt is a function of the
plan text and the fixed targets), and `manager` maps the corrected plan text
and the step-6 extracted cost to the formatted output (the manager prompt is
a function of exactly these plus the fixed doctor output). -/

/-- `MAX_RETRIES` (src/app.py line 15). -/
def MAX_RETRIES : Nat := 5

/-- `CAL_TOLERANCE` (src/app.py line 16). -/
def CAL_TOLERANCE : Nat := 25

/-- Generation-backend oracle for one workflow run. -/
structure Oracle where
  budgetOut : String
  correct : String → String
  manager : String → String → String

/-- `n`-fold application of the correction agent. -/
def iterApp (f : String → String) : Nat → String → String
  | 0, t => t
  | n + 1, t => iterApp f n (f t)

/-- The calorie-correction loop (src/app.py lines 809-839): up to `fuel`
iterations, each extracting calories from the working text, stopping when the
gap is within tolerance and otherwise issuing one correction generation call.
Returns the final working text and the number of correction calls issued. -/
def calorieLoopGo (correct : String → String) (target : ℤ) :
    Nat → String → String × Nat
  | 0, t => (t, 0)
  | n + 1, t =>
    if (target - (extract_calories t : ℤ)).natAbs ≤ CAL_TOLERANCE then (t, 0)
    else
      let p := calorieLoopGo correct target n (correct t)
      (p.1, p.2 + 1)

/-- The calorie-correction loop with the source's retry budget. -/
def calorieLoop (correct : String → String) (target : ℤ) (t : String) : String × Nat :=
  calorieLoopGo correct target MAX_RETRIES t

/-- Result of one workflow run: the two returned values (src/app.py line 926)
plus the step-8 cost stored into the session memory (lines 918-924). -/
structure WfResult where
  finalOutput : String
  finalCost : String
  memBudget : String

/-- `generate_plan_workflow` (src/app.py lines 553-926) at the granularity of
the cost/calorie dataflow: run the correction loop on the budget-stage
output, extract the step-6 cost, produce the manager output, compute the
step-8 cost into session memory, and return `(final_output, final_cost)`
where `final_cost` is the step-6 value (line 844 is the sole assignment to
`final_cost`). -/
def generate_plan_workflow (o : Oracle) (target_cals : ℤ) : WfResult :=
  let plan_text := (calorieLoop o.correct target_cals o.budgetOut).1
  let final_cost := earlyCost plan_text
  let final_output := o.manager plan_text final_cost
  { finalOutput := final_output
    finalCost := final_cost
    memBudget := improvedCost final_output plan_text }

/-! ## The chat router (src/app.py lines 1336-1526)

The branch on the detected intent.  Streamlit UI calls are out of scope; the
model records, per branch, the essential action: which plan-workflow call is
issued (and with which duration / meals / feedback / previous cost), or which
clarification is appended, or which context snapshot the general-question
reply is generated from. -/

/-- One chat message of the session log. -/
structure ChatMsg where
  role : String
  content : String

/-- One food-diary entry of the aggregate agent memory. -/
structure FoodEntry where
  timestamp : String
  analysis : String
  co2 : ℚ

/-- The aggregate `agent_memory` session structure (src/app.py lines
1035-1043). -/
structure AgentMemory where
  meal_plan : Option String
  plan_duration : Option ℤ
  total_budget : Option String
  carbon_report : Option String
  carbon_co2 : Option ℚ
  carbon_score : Option ℤ
  food_diary : List FoodEntry

/-- The session state consulted by the router. -/
structure SessionState where
  pending_plan : Option String
  plan_duration : Option ℤ
  total_budget : String
  agent_memory : AgentMemory
  approved_plan : String

/-- The intent fields the router reads out of the classifier reply
(src/app.py lines 1344-1347). -/
structure IntentData where
  intent : String
  duration : Option ℤ
  meals_per_day : Option ℤ
  feedback : Option String

/-- Context snapshot assembled by the general-question branch (src/app.py
lines 1453-1524): the pending plan truncated to 2500 characters when present,
otherwise the latest approved plan truncated to 1500 characters, plus the
aggregate memory, the last 3 food-diary entries and the last 4 chat turns. -/
structure GQContext where
  pendingShown : Option String
  approvedShown : Option String
  memory : AgentMemory
  diaryLast3 : List FoodEntry
  historyLast4 : List ChatMsg

/-- The externally visible action of one routed chat turn. -/
inductive ChatAction where
  | workflowCall (duration : ℤ) (mealsPerDay : ℤ) (feedback : Option String)
      (previousCost : Option ℚ) : ChatAction
  | askDuration (reply : String) : ChatAction
  | general (ctx : GQContext) : ChatAction
  | noReply : ChatAction

/-- Python `float(clean)` on the output of `re.sub` keeping digits and dots
(src/app.py lines 1422-1427): `None` when the cleaned string is empty and on
the `ValueError` of a malformed numeral (caught by the bare `except`). -/
def prevCostOf (raw : String) : Option ℚ :=
  let clean := raw.toList.filter (fun c => isDig c || c = '.')
  if clean.isEmpty then none
  else if (clean.filter (fun c => c = '.')).length ≤ 1 && clean.any isDig then
    let intPart := clean.takeWhile isDig
    let fracPart := (clean.dropWhile isDig).drop 1
    some ((natOf intPart : ℚ) + (natOf fracPart : ℚ) / ((10 : ℚ) ^ fracPart.length))
  else none

/-- The general-question branch (src/app.py lines 1453-1524). -/
def generalBranch (st : SessionState) (hist : List ChatMsg) : ChatAction :=
  .general
    { pendingShown := st.pending_plan.map (fun p => String.mk (p.toList.take 2500))
      approvedShown :=
        match st.pending_plan with
        | some _ => none
        | none => some (String.mk (st.approved_plan.toList.take 1500))
      memory := st.agent_memory
      diaryLast3 := lastN 3 st.agent_memory.food_diary
      historyLast4 := lastN 4 hist }

/-- The sequential clamp of the CREATE_PLAN / ANSWER_DURATION branches
(src/app.py lines 1353-1357 and 1388-1389). -/
def clampDuration (d : ℤ) : ℤ :=
  let d1 := if d > 7 then 7 else d
  if d1 < 1 then 1 else d1

/-- The chat router (src/app.py lines 1344-1526): the if/elif chain on the
detected intent, with the REGENERATE_PLAN branch demoting itself to
GENERAL_QUESTION when no plan is pending, and the GENERAL_QUESTION block
keyed on the possibly reassigned intent.  `hist` is the chat log after the
user message has been appended (line 1338); `profileMeals` is `u_data[9]`.
Durations are consumed through Python truthiness: a missing or zero duration
routes to the clarification reply. -/
def routeChat (d : IntentData) (userMsg : String) (st : SessionState)
    (profileMeals : ℤ) (hist : List ChatMsg) : ChatAction :=
  let hasPending := st.pending_plan.isSome
  let reqMeals :=
    match d.meals_per_day with
    | some m => if m ≠ 0 then m else profileMeals
    | none => profileMeals
  if d.intent = "CREATE_PLAN" then
    match d.duration with
    | some dur =>
      if dur ≠ 0 then .workflowCall (clampDuration dur) reqMeals none none
      else .askDuration "How many days should I plan for?"
    | none => .askDuration "How many days should I plan for?"
  else if d.intent = "ANSWER_DURATION" then
    match d.duration with
    | some dur =>
      if dur ≠ 0 then .workflowCall (clampDuration dur) profileMeals none none
      else .askDuration "I need a number (1-7). How many days?"
    | none => .askDuration "I need a number (1-7). How many days?"
  else if d.intent = "REGENERATE_PLAN" then
    if hasPending then
      let storedDur := st.plan_duration.getD 7
      let fb :=
        match d.feedback with
        | some f => if f ≠ "" then f else userMsg
        | none => userMsg
      .workflowCall storedDur profileMeals (some fb) (prevCostOf st.total_budget)
    else generalBranch st hist
  else if d.intent = "GENERAL_QUESTION" then generalBranch st hist
  else .noReply

/-! ## Concrete instances used by the counterexamples and witnesses below -/

/-- An oracle run on which the budget-stage sentinel and the manager-stage
sentinel carry different figures: the budget agent reports 1500, the manager
output reports 1600, and the calorie loop converges immediately (the budget
text has no calorie mention, so a zero target is within tolerance). -/
def oC1 : Oracle :=
  { budgetOut := "### TOTAL_COST: 1500 ###"
    correct := fun t => t
    manager := fun _ _ => "### TOTAL_COST: 1600 ###" }

/-- Empty aggregate memory (the session defaults of src/app.py 1035-1043). -/
def mem0 : AgentMemory := ⟨none, none, none, none, none, none, []⟩

/-- A fresh session: no pending plan, default budget string. -/
def st0 : SessionState := ⟨none, none, "0", mem0, "No previous approved plans."⟩

/-- A session with a pending plan. -/
def stPending : SessionState := ⟨some "PENDING PLAN TEXT", some 3, "1500", mem0, ""⟩

/-- A CREATE_PLAN intent whose extracted duration exceeds the limit. -/
def dCreate12 : IntentData := ⟨"CREATE_PLAN", some 12, none, none⟩

/-- An ANSWER_DURATION intent with a negative extracted duration. -/
def dAnswerNeg : IntentData := ⟨"ANSWER_DURATION", some (-2), none, none⟩

/-- A REGENERATE_PLAN intent carrying feedback. -/
def dRegen : IntentData := ⟨"REGENERATE_PLAN", some 3, none, some "no paneer"⟩

/-! ## Substring lemmas

A successful match of any of the calorie patterns forces the corresponding
literal (`total` for the tier-1 patterns, `kcal` for the tier-2 and tier-3
patterns) to occur in the scanned text.  These feed the graceful-default
theorem for `extract_calories`. -/

theorem containsSub_cons {p cs : List Char} (c : Char) (h : containsSub p cs = true) :
    containsSub p (c :: cs) = true := by
  simp [containsSub, h]

theorem containsSub_append {p b : List Char} (a : List Char)
    (h : containsSub p b = true) : containsSub p (a ++ b) = true := by
  induction a with
  | nil => simpa using h
  | cons c cs ih => exact containsSub_cons c ih

theorem containsSub_of_isPref {p t : List Char} (hp : p ≠ [])
    (h : isPref p t = true) : containsSub p t = true := by
  cases t with
  | nil =>
    cases p with
    | nil => exact absurd rfl hp
    | cons a as => simp [isPref] at h
  | cons c cs => simp [containsSub, h]

theorem containsSub_of_drop {p t : List Char} (n : Nat)
    (h : containsSub p (t.drop n) = true) : containsSub p t = true := by
  have h2 := containsSub_append (t.take n) h
  rwa [List.take_append_drop] at h2

theorem containsSub_of_ws {p t : List Char} (h : containsSub p (ws t) = true) :
    containsSub p t = true := by
  have h2 := containsSub_append (t.takeWhile isWs)
    (show containsSub p (t.dropWhile isWs) = true from h)
  rwa [List.takeWhile_append_dropWhile] at h2

theorem containsSub_of_optColonDash {p t : List Char}
    (h : containsSub p (optColonDash t) = true) : containsSub p t = true := by
  cases t with
  | nil => simpa [optColonDash] using h
  | cons c cs =>
    by_cases hc : (c = ':' || c = '-') = true
    · exact containsSub_cons c (by simpa [optColonDash, hc] using h)
    · simpa [optColonDash, hc] using h

theorem isPref_mono : ∀ {a b t : List Char}, isPref (a ++ b) t = true → isPref a t = true := by
  intro a
  induction a with
  | nil => intro b t _; rfl
  | cons p ps ih =>
    intro b t h
    cases t with
    | nil => simp [isPref] at h
    | cons c cs =>
      simp only [List.cons_append, isPref, Bool.and_eq_true] at h ⊢
      exact ⟨h.1, ih h.2⟩

theorem lit_eq_some {w : String} {t r : List Char} (h : lit w t = some r) :
    isPref w.toList t = true ∧ r = t.drop w.toList.length := by
  unfold lit at h
  split at h
  · exact ⟨by assumption, (Option.some.inj h).symm⟩
  · cases h

theorem lit_isSome {w : String} {t : List Char} (h : (lit w t).isSome = true) :
    isPref w.toList t = true := by
  cases hl : lit w t with
  | none => rw [hl] at h; cases h
  | some r => exact (lit_eq_some hl).1

theorem tryK_isSome {lo : Nat} {ds rest : List Char}
    {cont : List Char → Option (List Char)} :
    ∀ k, (tryK lo ds rest cont k).isSome = true →
      ∃ j, (cont (ds.drop j ++ rest)).isSome = true := by
  intro k
  induction k with
  | zero => intro h; simp [tryK] at h
  | succ n ih =>
    intro h
    rw [tryK] at h
    split at h
    · cases h
    · cases hc : cont (ds.drop (n + 1) ++ rest) with
      | some r => exact ⟨n + 1, by rw [hc]; rfl⟩
      | none => rw [hc] at h; exact ih h

theorem digBounded_kcal {lo hi : Nat} {l : List Char}
    (h : (digBounded lo hi kcalCont l).isSome = true) :
    containsSub "kcal".toList l = true := by
  replace h : (if (digRun l).1.length < lo then (none : Option (Nat × List Char))
      else tryK lo (digRun l).1 (digRun l).2 kcalCont
        (min (digRun l).1.length hi)).isSome = true := h
  split at h
  · cases h
  · obtain ⟨j, hj⟩ := tryK_isSome _ h
    unfold kcalCont at hj
    have hpref := lit_isSome hj
    have h1 : containsSub "kcal".toList (ws ((digRun l).1.drop j ++ (digRun l).2)) = true :=
      containsSub_of_isPref (by decide) hpref
    have h2 := containsSub_of_ws h1
    have h3 := containsSub_append ((digRun l).1.take j) h2
    rw [← List.append_assoc, List.take_append_drop] at h3
    have h4 : (digRun l).1 ++ (digRun l).2 = l := by
      simp [digRun]
    rwa [h4] at h3

theorem kcalAt_kcal {l : List Char} (h : (kcalAt l).isSome = true) :
    containsSub "kcal".toList l = true :=
  digBounded_kcal h

theorem mealAt_kcal {w : String} {b : Bool} {l : List Char}
    (h : (mealAt w b l).isSome = true) : containsSub "kcal".toList l = true := by
  unfold mealAt at h
  cases hl : lit w l with
  | none => rw [hl] at h; cases h
  | some l1 =>
    rw [hl] at h
    have hk := digBounded_kcal h
    have hk2 := containsSub_of_ws (containsSub_of_optColonDash (containsSub_of_ws hk))
    have hk3 : containsSub "kcal".toList l1 = true := by
      cases b with
      | false => simpa using hk2
      | true =>
        cases l1 with
        | nil => simpa using hk2
        | cons c cs =>
          by_cases hc : c = 's'
          · subst hc
            simp only [if_true] at hk2
            exact containsSub_cons 's' (by simpa using hk2)
          · simp only [if_true] at hk2
            cases c
            simp_all
    have hr := (lit_eq_some hl).2
    subst hr
    exact containsSub_of_drop _ hk3

theorem p1At_total {l : List Char} (h : (p1At l).isSome = true) :
    containsSub "total".toList l = true := by
  unfold p1At at h
  cases hl : lit "total" l with
  | none => rw [hl] at h; cases h
  | some l1 => exact containsSub_of_isPref (by decide) (lit_eq_some hl).1

theorem p2At_total {l : List Char} (h : (p2At l).isSome = true) :
    containsSub "total".toList l = true := by
  unfold p2At at h
  cases h1 : lit "#" l with
  | none => rw [h1] at h; cases h
  | some l1 =>
    rw [h1] at h
    replace h : (match lit "total" (ws l1) with
        | none => none
        | some l2 => digBounded 3 5 nilCont (ws (optColonDash (ws l2)))).isSome = true := h
    cases h2 : lit "total" (ws l1) with
    | none => rw [h2] at h; cases h
    | some l2 =>
      have hc : containsSub "total".toList (ws l1) = true :=
        containsSub_of_isPref (by decide) (lit_eq_some h2).1
      have hc1 := containsSub_of_ws hc
      obtain ⟨_, hr⟩ := lit_eq_some h1
      subst hr
      exact containsSub_of_drop _ hc1

theorem p3At_total {l : List Char} (h : (p3At l).isSome = true) :
    containsSub "total".toList l = true := by
  unfold p3At at h
  cases hl : lit "total calories" l with
  | none => rw [hl] at h; cases h
  | some l1 =>
    have hp := (lit_eq_some hl).1
    have hsplit : "total calories".toList = "total".toList ++ " calories".toList := by decide
    rw [hsplit] at hp
    exact containsSub_of_isPref (by decide) (isPref_mono hp)

theorem searchA_isSome {α : Type} {f : List Char → Option α} {p : List Char}
    (hf : ∀ t, (f t).isSome = true → containsSub p t = true) :
    ∀ {l : List Char}, (searchA f l).isSome = true → containsSub p l = true := by
  intro l
  induction l with
  | nil => intro h; simp [searchA] at h
  | cons c cs ih =>
    intro h
    rw [searchA] at h
    cases hc : f (c :: cs) with
    | some v => exact hf _ (by rw [hc]; rfl)
    | none => rw [hc] at h; exact containsSub_cons c (ih h)

theorem findallA_ne_nil {f : List Char → Option (Nat × List Char)} {p : List Char}
    (hf : ∀ t, (f t).isSome = true → containsSub p t = true) :
    ∀ (fuel : Nat) (l : List Char), findallA f fuel l ≠ [] → containsSub p l = true := by
  intro fuel
  induction fuel with
  | zero => intro l h; simp [findallA] at h
  | succ n ih =>
    intro l h
    cases l with
    | nil => simp [findallA] at h
    | cons c cs =>
      rw [findallA] at h
      cases hc : f (c :: cs) with
      | some v => exact hf _ (by rw [hc]; rfl)
      | none => rw [hc] at h; exact containsSub_cons c (ih cs h)

theorem tier1_none_of_no_total {t : List Char}
    (h : containsSub "total".toList t = false) : tier1 t = none := by
  have hgen : ∀ (f : List Char → Option (Nat × List Char)),
      (∀ t', (f t').isSome = true → containsSub "total".toList t' = true) →
      searchA f t = none := by
    intro f hf
    cases hs : searchA f t with
    | none => rfl
    | some v =>
      have hc := searchA_isSome hf (f := f) (l := t) (by rw [hs]; rfl)
      rw [h] at hc
      cases hc
  have h1 := hgen p1At (fun _ ht' => p1At_total ht')
  have h2 := hgen p2At (fun _ ht' => p2At_total ht')
  have h3 := hgen p3At (fun _ ht' => p3At_total ht')
  simp [tier1, h1, h2, h3]

theorem findall_nil_of_no_kcal {f : List Char → Option (Nat × List Char)}
    {t : List Char} (hf : ∀ t', (f t').isSome = true → containsSub "kcal".toList t' = true)
    (h : containsSub "kcal".toList t = false) : findall f t = [] := by
  cases hfa : findall f t with
  | nil => rfl
  | cons x xs =>
    have hne : findallA f t.length t ≠ [] := by
      rw [show findallA f t.length t = findall f t from rfl, hfa]
      simp
    have hc := findallA_ne_nil hf t.length t hne
    rw [h] at hc
    cases hc

theorem mealCaps_nil_of_no_kcal {t : List Char}
    (h : containsSub "kcal".toList t = false) : mealCaps t = [] := by
  have h1 := findall_nil_of_no_kcal (fun t' ht' => mealAt_kcal ht') h
    (f := mealAt "breakfast" false)
  have h2 := findall_nil_of_no_kcal (fun t' ht' => mealAt_kcal ht') h
    (f := mealAt "lunch" false)
  have h3 := findall_nil_of_no_kcal (fun t' ht' => mealAt_kcal ht') h
    (f := mealAt "dinner" false)
  have h4 := findall_nil_of_no_kcal (fun t' ht' => mealAt_kcal ht') h
    (f := mealAt "snack" true)
  simp [mealCaps, h1, h2, h3, h4]

theorem tier3Caps_nil_of_no_kcal {t : List Char}
    (h : containsSub "kcal".toList t = false) : tier3Caps t = [] := by
  have h1 := findall_nil_of_no_kcal (fun t' ht' => kcalAt_kcal ht') h (f := kcalAt)
  simp [tier3Caps, h1]

/-! ## Helper lemmas for the calorie-correction loop -/

theorem calorieLoopGo_succ (c : String → String) (tgt : ℤ) (n : Nat) (t : String) :
    calorieLoopGo c tgt (n + 1) t =
      if (tgt - (extract_calories t : ℤ)).natAbs ≤ CAL_TOLERANCE then (t, 0)
      else ((calorieLoopGo c tgt n (c t)).1, (calorieLoopGo c tgt n (c t)).2 + 1) := rfl

theorem calorieLoop_eq (c : String → String) (tgt : ℤ) (t : String) :
    calorieLoop c tgt t =
      if (tgt - (extract_calories t : ℤ)).natAbs ≤ CAL_TOLERANCE then (t, 0)
      else ((calorieLoopGo c tgt 4 (c t)).1, (calorieLoopGo c tgt 4 (c t)).2 + 1) := rfl

theorem calorieLoopGo_exhaust (c : String → String) (tgt : ℤ) :
    ∀ (n : Nat) (t : String),
      (∀ k, k < n → CAL_TOLERANCE < (tgt - (extract_calories (iterApp c k t) : ℤ)).natAbs) →
      calorieLoopGo c tgt n t = (iterApp c n t, n) := by
  intro n
  induction n with
  | zero => intro t _; rfl
  | succ m ih =>
    intro t h
    rw [calorieLoopGo_succ, if_neg]
    · have hrec := ih (c t) (fun k hk => h (k + 1) (by omega))
      rw [hrec]
      rfl
    · have h0 := h 0 (by omega)
      simp only [iterApp] at h0
      omega

theorem calorieLoop_count (c : String → String) (tgt : ℤ) (t0 : String) :
    (calorieLoop c tgt t0).2 =
      if (tgt - (extract_calories t0 : ℤ)).natAbs ≤ CAL_TOLERANCE then 0
      else (calorieLoopGo c tgt 4 (c t0)).2 + 1 := by
  rw [calorieLoop_eq]
  split
  · rfl
  · rfl

/-! ## Claim theorems -/

/-- Claim C5: in the calorie-correction loop (tolerance `CAL_TOLERANCE` = 25,
maximum `MAX_RETRIES` = 5 iterations), a correction generation call is issued
exactly when the absolute gap between the target and the extracted calories
exceeds 25; for target 2000, a plan text extracting to 2100 kcal triggers at
least one correction call and one extracting to 2010 kcal triggers zero; when
no attempt reaches tolerance the loop terminates after exactly 5 correction
calls and the workflow proceeds with the text of the 5th attempt. -/
theorem calorie_correction_loop_spec :
    (∀ (c : String → String) (tgt : ℤ) (t0 : String),
        1 ≤ (calorieLoop c tgt t0).2 ↔
          CAL_TOLERANCE < (tgt - (extract_calories t0 : ℤ)).natAbs) ∧
    (∀ (c : String → String) (t0 : String), extract_calories t0 = 2100 →
        1 ≤ (calorieLoop c 2000 t0).2) ∧
    (∀ (c : String → String) (t0 : String), extract_calories t0 = 2010 →
        calorieLoop c 2000 t0 = (t0, 0)) ∧
    (∀ (c : String → String) (tgt : ℤ) (t0 : String),
        (∀ k, k < MAX_RETRIES →
            CAL_TOLERANCE < (tgt - (extract_calories (iterApp c k t0) : ℤ)).natAbs) →
        calorieLoop c tgt t0 = (iterApp c MAX_RETRIES t0, MAX_RETRIES)) ∧
    (∀ (o : Oracle) (tgt : ℤ),
        (generate_plan_workflow o tgt).finalOutput =
          o.manager (calorieLoop o.correct tgt o.budgetOut).1
            (earlyCost (calorieLoop o.correct tgt o.budgetOut).1)) := by
  refine ⟨fun c tgt t0 => ?_, fun c t0 h => ?_, fun c t0 h => ?_,
    fun c tgt t0 h => calorieLoopGo_exhaust c tgt MAX_RETRIES t0 h, fun o tgt => rfl⟩
  · rw [calorieLoop_count]
    split
    · rename_i hc
      simp only [CAL_TOLERANCE] at hc ⊢
      omega
    · rename_i hc
      simp only [CAL_TOLERANCE] at hc ⊢
      omega
  · rw [calorieLoop_count, h, if_neg (by decide)]
    omega
  · rw [calorieLoop_eq, h, if_pos (by decide)]

/-- Witness for C5, applying the three conditional parts at closed inputs. -/
theorem calorie_correction_loop_spec_witness :
    1 ≤ (calorieLoop (fun _ => "corrected") 2000 "Total: 2100 kcal").2 ∧
    calorieLoop (fun _ => "corrected") 2000 "Total: 2010 kcal" = ("Total: 2010 kcal", 0) ∧
    calorieLoop (fun _ => "x") 2000 "a" = (iterApp (fun _ => "x") MAX_RETRIES "a", MAX_RETRIES) :=
  ⟨calorie_correction_loop_spec.2.1 _ _ (by decide),
   calorie_correction_loop_spec.2.2.1 _ _ (by decide),
   calorie_correction_loop_spec.2.2.2.1 _ _ _ (by decide)⟩

/-- Counterexample to claim C1 as stated: on the oracle `oC1` the workflow
returns the step-6 cost "1500" extracted from the budget-stage text, while
the manager-output-preferring step-8 extraction yields "1600"; the returned
cost is therefore not the step-8 value.  In the source, line 844 is the only
assignment to the returned `final_cost`; the step-8 value reaches only the
session memory. -/
theorem workflow_returned_cost_counterexample :
    (generate_plan_workflow oC1 0).finalCost = "1500" ∧
    (generate_plan_workflow oC1 0).memBudget = "1600" ∧
    improvedCost (generate_plan_workflow oC1 0).finalOutput
        (calorieLoop oC1.correct 0 oC1.budgetOut).1 = "1600" ∧
    (generate_plan_workflow oC1 0).finalCost ≠
      improvedCost (generate_plan_workflow oC1 0).finalOutput
        (calorieLoop oC1.correct 0 oC1.budgetOut).1 := by
  refine ⟨by decide, by decide, by decide, by decide⟩

/-- Claim C1 (amended): the cost string returned by the plan workflow is the
step-6 extraction (the case-sensitive `### TOTAL_COST:` search of the
corrected budget-stage text, commas stripped, defaulting to "0"); the
manager-output-preferring step-8 extraction is computed and stored into the
session memory but is not the returned value. -/
theorem workflow_returned_cost_amended (o : Oracle) (tgt : ℤ) :
    (generate_plan_workflow o tgt).finalCost =
        earlyCost (calorieLoop o.correct tgt o.budgetOut).1 ∧
    (generate_plan_workflow o tgt).memBudget =
        improvedCost (generate_plan_workflow o tgt).finalOutput
          (calorieLoop o.correct tgt o.budgetOut).1 :=
  ⟨rfl, rfl⟩

/-- Witness for the amended C1 at a closed oracle and target. -/
theorem workflow_returned_cost_amended_witness :
    (generate_plan_workflow oC1 5).finalCost =
        earlyCost (calorieLoop oC1.correct 5 oC1.budgetOut).1 ∧
    (generate_plan_workflow oC1 5).memBudget =
        improvedCost (generate_plan_workflow oC1 5).finalOutput
          (calorieLoop oC1.correct 5 oC1.budgetOut).1 :=
  workflow_returned_cost_amended oC1 5

/-- Counterexample to claim C2 as stated: `fish egg` contains both `fish` and
`egg` and no higher-priority keyword, yet the code returns 0.4 (the egg
branch precedes the fish branch), not the claimed 0.5; `rice dal` contains
both `rice` and `dal` and no higher-priority keyword, yet the code returns
0.2 (the dal branch precedes the staple-grain branch), not the claimed
0.25. -/
theorem estimate_food_carbon_order_counterexample :
    estimate_food_carbon "fish egg" = 2/5 ∧ ¬ estimate_food_carbon "fish egg" = 1/2 ∧
    estimate_food_carbon "rice dal" = 1/5 ∧ ¬ estimate_food_carbon "rice dal" = 1/4 := by
  refine ⟨rfl, ?_, rfl, ?_⟩
  · rw [show estimate_food_carbon "fish egg" = 2/5 from rfl]
    norm_num
  · rw [show estimate_food_carbon "rice dal" = 1/5 from rfl]
    norm_num

/-- Claim C2 (amended): `estimate_food_carbon` checks its keyword categories
in the if-chain order of the source with first match winning: red meat
(mutton/lamb/beef) 2.5, chicken 0.8, paneer/cheese/butter 0.6, egg 0.4, fish
0.5, dal/lentil/beans 0.2, vegetable/sabzi/salad 0.15, rice/roti/chapati
0.25, default 0.35.  In particular a description containing both fish and egg
and no earlier keyword yields 0.4, and one containing both rice and dal and
no earlier keyword yields 0.2. -/
theorem estimate_food_carbon_order_amended :
    (∀ s : String,
      containsAny (lowerL s.toList) ["fish"] = true →
      containsAny (lowerL s.toList) ["egg"] = true →
      containsAny (lowerL s.toList) ["mutton", "lamb", "beef"] = false →
      containsAny (lowerL s.toList) ["chicken"] = false →
      containsAny (lowerL s.toList) ["paneer", "cheese", "butter"] = false →
      estimate_food_carbon s = 2/5) ∧
    (∀ s : String,
      containsAny (lowerL s.toList) ["rice", "roti", "chapati"] = true →
      containsAny (lowerL s.toList) ["dal", "lentil", "beans"] = true →
      containsAny (lowerL s.toList) ["mutton", "lamb", "beef"] = false →
      containsAny (lowerL s.toList) ["chicken"] = false →
      containsAny (lowerL s.toList) ["paneer", "cheese", "butter"] = false →
      containsAny (lowerL s.toList) ["egg"] = false →
      containsAny (lowerL s.toList) ["fish"] = false →
      estimate_food_carbon s = 1/5) := by
  constructor
  · intro s h1 h2 h3 h4 h5
    simp only [estimate_food_carbon, h2, h3, h4, h5]
    simp
  · intro s h1 h2 h3 h4 h5 h6 h7
    simp only [estimate_food_carbon, h2, h3, h4, h5, h6, h7]
    simp

/-- Witness for the amended C2 at the two closed descriptions. -/
theorem estimate_food_carbon_order_amended_witness :
    estimate_food_carbon "fish egg" = 2/5 ∧ estimate_food_carbon "rice dal" = 1/5 :=
  ⟨estimate_food_carbon_order_amended.1 "fish egg" (by decide) (by decide) (by decide)
      (by decide) (by decide),
   estimate_food_carbon_order_amended.2 "rice dal" (by decide) (by decide) (by decide)
      (by decide) (by decide) (by decide) (by decide)⟩

/-- Counterexample to claim C3 as stated: at weight 70, height 175, age 25,
male, sedentary, the code returns 2008 (BMR 1673.75, times 1.2 gives 2008.5,
truncated), not the 2083 the claim asserts; the claimed BMR value 1736.25 is
an arithmetic slip of the spec. -/
theorem calculate_needs_instance_counterexample :
    calculate_needs 70 175 25 "Male" "Sedentary" = 2008 ∧
    ¬ calculate_needs 70 175 25 "Male" "Sedentary" = 2083 := by
  have heval : calculate_needs 70 175 25 "Male" "Sedentary" = 2008 := by
    simp only [calculate_needs, pyInt, reduceIte]
    rw [show dictGet multipliers "Sedentary" (6/5) = (6/5 : ℚ) from rfl,
      if_pos (by norm_num), Int.floor_eq_iff]
    norm_num
  exact ⟨heval, by rw [heval]; decide⟩

/-- Claim C3 (amended): `calculate_needs` is a deterministic pure function
computing the Mifflin-St Jeor BMR (10w + 6.25h - 5a + 5 for gender `Male`,
the -161 constant otherwise), multiplying by the activity factor (Sedentary
1.20, Active 1.55, Very Active 1.90, unknown defaults to 1.20) and truncating
to an integer; for weight 70, height 175, age 25, Male, Sedentary it returns
2008. -/
theorem calculate_needs_amended :
    (∀ (w h : ℚ) (a : ℤ) (act : String),
        calculate_needs w h a "Male" act =
          pyInt ((10 * w + (25/4) * h - 5 * a + 5) * dictGet multipliers act (6/5))) ∧
    (∀ (w h : ℚ) (a : ℤ) (g act : String), g ≠ "Male" →
        calculate_needs w h a g act =
          pyInt ((10 * w + (25/4) * h - 5 * a - 161) * dictGet multipliers act (6/5))) ∧
    dictGet multipliers "Sedentary" (6/5) = 6/5 ∧
    dictGet multipliers "Active" (6/5) = 31/20 ∧
    dictGet multipliers "Very Active" (6/5) = 19/10 ∧
    (∀ act : String, act ≠ "Sedentary" → act ≠ "Active" → act ≠ "Very Active" →
        dictGet multipliers act (6/5) = 6/5) ∧
    calculate_needs 70 175 25 "Male" "Sedentary" = 2008 := by
  refine ⟨fun w h a act => ?_, fun w h a g act hg => ?_, rfl, rfl, rfl,
    fun act h1 h2 h3 => ?_, ?_⟩
  · simp only [calculate_needs, reduceIte]
  · simp only [calculate_needs]
    rw [if_neg hg]
  · have hs1 : ¬("Sedentary" = act) := fun hx => h1 hx.symm
    have hs2 : ¬("Active" = act) := fun hx => h2 hx.symm
    have hs3 : ¬("Very Active" = act) := fun hx => h3 hx.symm
    simp [multipliers, dictGet, hs1, hs2, hs3]
  · simp only [calculate_needs, pyInt, reduceIte]
    rw [show dictGet multipliers "Sedentary" (6/5) = (6/5 : ℚ) from rfl,
      if_pos (by norm_num), Int.floor_eq_iff]
    norm_num

/-- Witness for the amended C3 on the non-male and unknown-activity paths. -/
theorem calculate_needs_amended_witness :
    calculate_needs 70 175 25 "Female" "Zumba" =
        pyInt ((10 * 70 + (25/4) * 175 - 5 * 25 - 161) * dictGet multipliers "Zumba" (6/5)) ∧
    dictGet multipliers "Zumba" (6/5) = 6/5 :=
  ⟨calculate_needs_amended.2.1 70 175 25 "Female" "Zumba" (by decide),
   calculate_needs_amended.2.2.2.2.2.1 "Zumba" (by decide) (by decide) (by decide)⟩

/-- Claim C4: in every chat branch consuming a classifier-extracted duration
(CREATE_PLAN and ANSWER_DURATION), any workflow call issued carries the
clamped duration: extracted values above 7 are clamped to 7, values below 1
are clamped to 1, in-range values pass unchanged, and the passed duration
always lies in 1..7. -/
theorem duration_clamped_in_router (d : IntentData) (userMsg : String)
    (st : SessionState) (pm : ℤ) (hist : List ChatMsg) (dur m : ℤ)
    (fb : Option String) (pc : Option ℚ)
    (hintent : d.intent = "CREATE_PLAN" ∨ d.intent = "ANSWER_DURATION")
    (hcall : routeChat d userMsg st pm hist = ChatAction.workflowCall dur m fb pc) :
    ∃ d0, d.duration = some d0 ∧ dur = clampDuration d0 ∧ 1 ≤ dur ∧ dur ≤ 7 ∧
      (7 < d0 → dur = 7) ∧ (d0 < 1 → dur = 1) ∧ (1 ≤ d0 → d0 ≤ 7 → dur = d0) := by
  have hclamp : ∀ d0 : ℤ, 1 ≤ clampDuration d0 ∧ clampDuration d0 ≤ 7 ∧
      (7 < d0 → clampDuration d0 = 7) ∧ (d0 < 1 → clampDuration d0 = 1) ∧
      (1 ≤ d0 → d0 ≤ 7 → clampDuration d0 = d0) := by
    intro d0
    simp only [clampDuration]
    split_ifs <;> omega
  rcases hintent with hi | hi
  all_goals
    rw [routeChat, hi] at hcall
    simp only [reduceIte] at hcall
    cases hd : d.duration with
    | none => rw [hd] at hcall; exact ChatAction.noConfusion hcall
    | some d0 =>
      rw [hd] at hcall
      by_cases h0 : d0 = 0
      · rw [h0] at hcall
        simp at hcall
      · simp only [ne_eq, h0, not_false_eq_true, if_true] at hcall
        obtain ⟨hdur, -, -, -⟩ := ChatAction.workflowCall.inj hcall
        obtain ⟨c1, c2, c3, c4, c5⟩ := hclamp d0
        refine ⟨d0, rfl, hdur.symm, ?_, ?_, ?_, ?_, ?_⟩
        · rw [← hdur]; exact c1
        · rw [← hdur]; exact c2
        · intro hx; rw [← hdur]; exact c3 hx
        · intro hx; rw [← hdur]; exact c4 hx
        · intro hx hy; rw [← hdur]; exact c5 hx hy

/-- Witness for C4: a CREATE_PLAN intent with extracted duration 12 issues a
workflow call with duration 7. -/
theorem duration_clamped_in_router_witness :
    ∃ d0, dCreate12.duration = some d0 ∧ (7 : ℤ) = clampDuration d0 ∧
      (1 : ℤ) ≤ 7 ∧ (7 : ℤ) ≤ 7 ∧ (7 < d0 → (7 : ℤ) = 7) ∧ (d0 < 1 → (7 : ℤ) = 1) ∧
      (1 ≤ d0 → d0 ≤ 7 → (7 : ℤ) = d0) :=
  duration_clamped_in_router dCreate12 "make me a 12 day plan" st0 3 [] 7 3 none none
    (Or.inl rfl) rfl

/-- Claim C9: a REGENERATE_PLAN intent with no pending plan in the session
routes exactly as a GENERAL_QUESTION intent would (same branch, same
resulting action) and issues no plan-workflow call. -/
theorem regenerate_without_pending_is_general (d : IntentData) (userMsg : String)
    (st : SessionState) (pm : ℤ) (hist : List ChatMsg)
    (hintent : d.intent = "REGENERATE_PLAN") (hnp : st.pending_plan = none) :
    routeChat d userMsg st pm hist =
        routeChat ⟨"GENERAL_QUESTION", d.duration, d.meals_per_day, d.feedback⟩
          userMsg st pm hist ∧
    routeChat d userMsg st pm hist = generalBranch st hist ∧
    ∀ (dur m : ℤ) (fb : Option String) (pc : Option ℚ),
      routeChat d userMsg st pm hist ≠ ChatAction.workflowCall dur m fb pc := by
  have hg : routeChat d userMsg st pm hist = generalBranch st hist := by
    rw [routeChat, hintent, hnp]
    simp
  have hg2 : routeChat ⟨"GENERAL_QUESTION", d.duration, d.meals_per_day, d.feedback⟩
      userMsg st pm hist = generalBranch st hist := by
    rw [routeChat]
    simp
  refine ⟨by rw [hg, hg2], hg, fun dur m fb pc => ?_⟩
  rw [hg, generalBranch]
  intro hx
  exact ChatAction.noConfusion hx

/-- Witness for C9 at a closed intent and fresh session. -/
theorem regenerate_without_pending_is_general_witness :
    routeChat dRegen "I dont have paneer" st0 3 [] =
        routeChat ⟨"GENERAL_QUESTION", dRegen.duration, dRegen.meals_per_day, dRegen.feedback⟩
          "I dont have paneer" st0 3 [] ∧
    routeChat dRegen "I dont have paneer" st0 3 [] = generalBranch st0 [] :=
  ⟨(regenerate_without_pending_is_general dRegen "I dont have paneer" st0 3 [] rfl rfl).1,
   (regenerate_without_pending_is_general dRegen "I dont have paneer" st0 3 [] rfl rfl).2.1⟩

/-- Claim C8: `detect_user_intent` never propagates a failure: when the
generation call raises, or the reply cannot be decoded, or the decoded object
lacks the intent key, it returns the fallback dict with intent
GENERAL_QUESTION, confidence 0.5, duration, meals and feedback null, and a
reasoning string naming the error. -/
theorem detect_user_intent_never_fails :
    (∀ (e : String) (loads : String → Except String (List (String × JsonV))),
        detect_user_intent (Except.error e) loads =
          JsonV.jobj [("intent", JsonV.jstr "GENERAL_QUESTION"),
            ("confidence", JsonV.jnum (1/2)), ("duration", JsonV.null),
            ("meals_per_day", JsonV.null), ("feedback", JsonV.null),
            ("reasoning", JsonV.jstr ("Error parsing intent: " ++ e))]) ∧
    (∀ (resp e : String) (loads : String → Except String (List (String × JsonV))),
        loads (preprocessIntent resp) = Except.error e →
        detect_user_intent (Except.ok resp) loads = intentFallback e) ∧
    (∀ (resp : String) (loads : String → Except String (List (String × JsonV)))
        (fields : List (String × JsonV)),
        loads (preprocessIntent resp) = Except.ok fields →
        hasKey "intent" fields = false →
        detect_user_intent (Except.ok resp) loads = intentFallback missingIntentMsg) := by
  refine ⟨fun e loads => rfl, fun resp e loads h => ?_, fun resp loads fields h hk => ?_⟩
  · simp [detect_user_intent, h]
  · simp [detect_user_intent, h, hk]

/-- Witness for C8 on the decode-failure and missing-intent paths. -/
theorem detect_user_intent_never_fails_witness :
    detect_user_intent (Except.ok " garbage reply ")
        (fun _ => Except.error "Expecting value") = intentFallback "Expecting value" ∧
    detect_user_intent (Except.ok "reply")
        (fun _ => Except.ok [("foo", JsonV.null)]) = intentFallback missingIntentMsg :=
  ⟨detect_user_intent_never_fails.2.1 " garbage reply " "Expecting value" _ rfl,
   detect_user_intent_never_fails.2.2 "reply" _ [("foo", JsonV.null)] rfl (by decide)⟩

/-- Counterexample to claim C6 as stated: the text below contains the exact
substring `Total: 2200 kcal`, yet `extract_calories` returns 999, the value
of the leftmost tier-1 match, not 2200. -/
theorem extract_calories_total_counterexample :
    containsSub "Total: 2200 kcal".toList "Total: 999 kcal. Total: 2200 kcal.".toList = true ∧
    extract_calories "Total: 999 kcal. Total: 2200 kcal." = 999 ∧
    ¬ extract_calories "Total: 999 kcal. Total: 2200 kcal." = 2200 := by
  refine ⟨by decide, by decide, by decide⟩

/-- Claim C6 (amended): `extract_calories` tries its tiers in fixed order with
the first tier producing a result winning, and within tier 1 returns the
value of the leftmost explicit-total match; consequently, for every text in
which `Total: 2200 kcal` yields the leftmost tier-1 match, it returns 2200
regardless of any other numeric kcal mentions elsewhere in the text. -/
theorem extract_calories_tier1_wins (s : String) (v : Nat)
    (h : tier1 (lowerL s.toList) = some v) : extract_calories s = v := by
  by_cases hs : s = ""
  · rw [hs] at h
    rw [show tier1 (lowerL "".toList) = none from rfl] at h
    exact Option.noConfusion h
  · have hcore : extract_calories_core (lowerL s.toList) = v := by
      unfold extract_calories_core
      rw [h]
    simp only [extract_calories, if_neg hs, hcore]

/-- Witness for the amended C6: tier 1 wins over surrounding kcal noise. -/
theorem extract_calories_tier1_wins_witness :
    extract_calories "Starter 500 kcal; Total: 2200 kcal; treat 800 kcal" = 2200 :=
  extract_calories_tier1_wins "Starter 500 kcal; Total: 2200 kcal; treat 800 kcal" 2200
    (by decide)

/-- Claim C7: `extract_calories` is total and, on any text with no kcal
mention at all, formalized as the lowercased text containing neither the
substring `kcal` (required by every tier-2 and tier-3 pattern) nor the
substring `total` (required by every tier-1 pattern), returns the defined
default 0; the empty string also returns 0.  Totality and the impossibility
of raising are inherent to the embedding: the function is defined on every
string. -/
theorem extract_calories_graceful_default (s : String)
    (hk : containsSub "kcal".toList (lowerL s.toList) = false)
    (ht : containsSub "total".toList (lowerL s.toList) = false) :
    extract_calories s = 0 := by
  by_cases hs : s = ""
  · subst hs
    rfl
  · have h1 := tier1_none_of_no_total ht
    have h2 := mealCaps_nil_of_no_kcal hk
    have h3 := tier3Caps_nil_of_no_kcal hk
    have hcore : extract_calories_core (lowerL s.toList) = 0 := by
      unfold extract_calories_core
      rw [h1, h2, h3]
      simp
    simp only [extract_calories, if_neg hs, hcore]

/-- Witness for C7 at a closed text with no calorie mention, plus the empty
string. -/
theorem extract_calories_graceful_default_witness :
    extract_calories "A light day of home food, no figures reported." = 0 ∧
    extract_calories "" = 0 :=
  ⟨extract_calories_graceful_default "A light day of home food, no figures reported."
      (by decide) (by decide), rfl⟩

/-- Claim C10: when tier 1 produces no match, the meal-wise tier of
`extract_calories` returns the sum of every Breakfast/Lunch/Dinner/Snacks
kcal capture found anywhere in the text, repeated meal tags included, so a
multi-day plan sums across all listed days. -/
theorem extract_calories_meal_tier_sums_all (s : String)
    (h1 : tier1 (lowerL s.toList) = none)
    (h2 : (mealCaps (lowerL s.toList)).isEmpty = false) :
    extract_calories s = (mealCaps (lowerL s.toList)).sum := by
  by_cases hs : s = ""
  · rw [hs] at h2
    rw [show mealCaps (lowerL "".toList) = [] from rfl] at h2
    exact absurd h2 (by decide)
  · have hcore : extract_calories_core (lowerL s.toList) = (mealCaps (lowerL s.toList)).sum := by
      unfold extract_calories_core
      rw [h1, h2]
      simp
    simp only [extract_calories, if_neg hs, hcore]

/-- Witness for C10: a two-day plan with per-day meal calories sums across
both days (here 1400), not a single day. -/
theorem extract_calories_meal_tier_sums_all_witness :
    extract_calories
        "Day 1: Breakfast: 300 kcal Lunch: 400 kcal. Day 2: Breakfast: 300 kcal Lunch: 400 kcal"
      = 1400 := by
  have h := extract_calories_meal_tier_sums_all
    "Day 1: Breakfast: 300 kcal Lunch: 400 kcal. Day 2: Breakfast: 300 kcal Lunch: 400 kcal"
    (by decide) (by decide)
  rw [h]
  decide

end NutriPlan
